import Mathlib

/-!
Verification development for the txAdmin telemetry core.

This file gives a shallow embedding of the health-liveness state machine
(`Stopwatch`, `HealthEventMonitor`) and of the performance-collection engine
(`PerformanceCollector`: `logServerBoot`, `logServerClose`, `collectStats`,
`getRecentStats`, `getServerPerfSummary`), translated from the TypeScript
source. Time is passed explicitly as a millisecond timestamp (the source reads
the wall clock via `Date.now()`); JavaScript `Infinity` on the elapsed-time
values is represented by `Option Nat` with `none` standing for `Infinity`;
fractional JavaScript numbers are represented by `Rat`.
-/

set_option maxRecDepth 5000

/-- Stopwatch with second precision, rounded down. `tsStart` is the
millisecond timestamp at which it was last (re)started, `none` if stopped.
Mirrors the `Stopwatch` class of the monitor module. -/
structure Stopwatch where
  autoStart : Bool
  tsStart : Option Nat
deriving DecidableEq, Repr

namespace Stopwatch

/-- `new Stopwatch()` with no auto-start (the only form the monitor uses). -/
def new : Stopwatch := { autoStart := false, tsStart := none }

/-- `restart()`: start or restart the stopwatch at the current time. -/
def restart (sw : Stopwatch) (now : Nat) : Stopwatch :=
  { sw with tsStart := some now }

/-- `reset()`: stop and clear, or restart when configured with auto-start. -/
def reset (sw : Stopwatch) (now : Nat) : Stopwatch :=
  if sw.autoStart then sw.restart now else { sw with tsStart := none }

/-- `started` getter: whether the stopwatch is running. -/
def started (sw : Stopwatch) : Bool := sw.tsStart.isSome

/-- `elapsed` getter: elapsed whole seconds, `none` (= JS `Infinity`) if the
stopwatch was never started. `(now - t) / 1000` is floor division. -/
def elapsed (sw : Stopwatch) (now : Nat) : Option Nat :=
  sw.tsStart.map (fun t => (now - t) / 1000)

/-- `isOver(secs)`: whether the elapsed time reached `secs`; always `false`
when the stopwatch is not started (elapsed = Infinity). -/
def isOver (sw : Stopwatch) (now : Nat) (secs : Nat) : Bool :=
  match sw.elapsed now with
  | none => false
  | some e => decide (secs ≤ e)

end Stopwatch

/-- The four operator-facing liveness states. -/
inductive MonitorState where
  | PENDING
  | HEALTHY
  | DELAYED
  | FATAL
deriving DecidableEq, Repr

/-- The `HealthEventMonitor` class: two configured thresholds, a stopwatch
tracking the last healthy event, and the timestamp of the first-ever healthy
event (if any). -/
structure HealthEventMonitor where
  delayLimit : Nat
  fatalLimit : Nat
  swLastHealthyEvent : Stopwatch
  firstHealthyEvent : Option Nat
deriving DecidableEq, Repr

/-- The value returned by the `status` getter. `none` in the two seconds
fields stands for JS `Infinity`. -/
structure MonitorStatus where
  state : MonitorState
  secsSinceLast : Option Nat
  secsSinceFirst : Option Nat
deriving DecidableEq, Repr

namespace HealthEventMonitor

/-- `new HealthEventMonitor(delayLimit, fatalLimit)`: fresh stopwatch
(not auto-start), no first-healthy timestamp. -/
def init (delayLimit fatalLimit : Nat) : HealthEventMonitor :=
  { delayLimit := delayLimit, fatalLimit := fatalLimit,
    swLastHealthyEvent := Stopwatch.new, firstHealthyEvent := none }

/-- `reset()`: reset the stopwatch and clear the first-healthy timestamp. -/
def reset (m : HealthEventMonitor) (now : Nat) : HealthEventMonitor :=
  { m with swLastHealthyEvent := m.swLastHealthyEvent.reset now,
           firstHealthyEvent := none }

/-- `markHealthy()`: restart the stopwatch; `firstHealthyEvent ??= Date.now()`
assigns the current time only when the field is still nullish. -/
def markHealthy (m : HealthEventMonitor) (now : Nat) : HealthEventMonitor :=
  { m with swLastHealthyEvent := m.swLastHealthyEvent.restart now,
           firstHealthyEvent := some (m.firstHealthyEvent.getD now) }

/-- The `status` getter. Note the source computes `secsSinceFirst` with a JS
truthiness test (`this.firstHealthyEvent ? ... : Infinity`), so a recorded
timestamp of `0` is treated exactly like an absent one. -/
def status (m : HealthEventMonitor) (now : Nat) : MonitorStatus :=
  let state :=
    if !m.swLastHealthyEvent.started then MonitorState.PENDING
    else if m.swLastHealthyEvent.isOver now m.fatalLimit then MonitorState.FATAL
    else if m.swLastHealthyEvent.isOver now m.delayLimit then MonitorState.DELAYED
    else MonitorState.HEALTHY
  { state := state
    secsSinceLast := m.swLastHealthyEvent.elapsed now
    secsSinceFirst :=
      match m.firstHealthyEvent with
      | some f => if f ≠ 0 then some ((now - f) / 1000) else none
      | none => none }

end HealthEventMonitor

/-- The mutating entry points of a `HealthEventMonitor`, each tagged with the
wall-clock time at which it is invoked. -/
inductive MonitorOp where
  | mark (t : Nat)
  | resetAt (t : Nat)
deriving DecidableEq, Repr

/-- Apply one monitor operation. -/
def HealthEventMonitor.applyOp (m : HealthEventMonitor) : MonitorOp → HealthEventMonitor
  | .mark t => m.markHealthy t
  | .resetAt t => m.reset t

/-- Run a sequence of monitor operations left to right. -/
def runMonitorOps (m : HealthEventMonitor) (ops : List MonitorOp) : HealthEventMonitor :=
  ops.foldl HealthEventMonitor.applyOp m

/-- Whether a `markHealthy` has happened since the last `reset` (or since
construction when no reset occurred). -/
def markedSinceReset (ops : List MonitorOp) : Bool :=
  ops.foldl (fun _acc op => match op with | .mark _ => true | .resetAt _ => false) false

/-! ## Performance collector: data model

The perf schemas (`SSPerfCountsType`, `SSPerfBoundariesType`, the log entry
types) and the helpers `diffPerfs` / `perfCountsToHist` live in modules that
are not part of the provided sources (`perfSchemas`, `perfUtils`,
`statsConfigs`, `statsLogOptimizer`); they are modelled from the spec where so
marked. -/

/-- Raw cumulative tick counters for one sub-metric: total tick count plus
per-latency-bucket tick counts, both monotonically increasing `u64` values
per the spec data model. -/
structure PerfCounter where
  count : Nat
  buckets : List Nat
deriving DecidableEq, Repr

/-- The three tracked sub-metrics of one raw counter snapshot
(`SSPerfCountsType`). -/
structure SSPerfCountsType where
  svMain : PerfCounter
  svNetwork : PerfCounter
  svSync : PerfCounter
deriving DecidableEq, Repr

/-- A possibly-negative counter difference for one sub-metric (JS numbers do
not distinguish the two shapes; the delta of two `u64` counters may be
negative when a counter reset went undetected). -/
structure PerfCounterDiff where
  count : Int
  buckets : List Int
deriving DecidableEq, Repr

/-- Counter differences for the three sub-metrics. -/
structure SSPerfDiffType where
  svMain : PerfCounterDiff
  svNetwork : PerfCounterDiff
  svSync : PerfCounterDiff
deriving DecidableEq, Repr

/-- Normalized histogram for one sub-metric: the (delta) tick count and the
per-bucket frequency fractions. -/
structure PerfHist where
  count : Int
  freqs : List Rat
deriving DecidableEq, Repr

/-- Histograms for the three sub-metrics (`SSPerfHistType`). -/
structure SSPerfHistType where
  svMain : PerfHist
  svNetwork : PerfHist
  svSync : PerfHist
deriving DecidableEq, Repr

/-- The boundary (bucket edge) configuration reported by the remote process
(`SSPerfBoundariesType`). The source compares boundary values via
`JSON.stringify` equality, i.e. structurally; a list of rationals suffices. -/
abbrev SSPerfBoundariesType : Type := List Rat

/-- View of raw counters as (nonnegative) counter differences; this is what
`diffPerfs` returns when it has no previous snapshot to subtract. -/
def countsAsDiff (c : SSPerfCountsType) : SSPerfDiffType :=
  { svMain := { count := (c.svMain.count : Int), buckets := c.svMain.buckets.map Int.ofNat }
    svNetwork := { count := (c.svNetwork.count : Int), buckets := c.svNetwork.buckets.map Int.ofNat }
    svSync := { count := (c.svSync.count : Int), buckets := c.svSync.buckets.map Int.ofNat } }

/-- Elementwise difference of one sub-metric counter pair. -/
def diffPerfCounter (curr prev : PerfCounter) : PerfCounterDiff :=
  { count := (curr.count : Int) - (prev.count : Int)
    buckets := List.zipWith (fun a b => (a : Int) - (b : Int)) curr.buckets prev.buckets }

/-- Modelled from the spec: `diffPerfs` of the missing `perfUtils` module.
If `prev` is undefined the current cumulative counters are returned unchanged
(cumulative-since-boot semantics); otherwise the count and the buckets are
subtracted elementwise. -/
def diffPerfs (curr : SSPerfCountsType) (prev : Option SSPerfCountsType) : SSPerfDiffType :=
  match prev with
  | none => countsAsDiff curr
  | some p =>
    { svMain := diffPerfCounter curr.svMain p.svMain
      svNetwork := diffPerfCounter curr.svNetwork p.svNetwork
      svSync := diffPerfCounter curr.svSync p.svSync }

/-- Normalize one sub-metric: frequencies are `bucket / count`, all zero when
`count = 0` to avoid division by zero. -/
def perfCounterToHist (c : PerfCounterDiff) : PerfHist :=
  { count := c.count
    freqs := if c.count = 0 then c.buckets.map (fun _ => (0 : Rat))
             else c.buckets.map (fun b => (b : Rat) / (c.count : Rat)) }

/-- Modelled from the spec: `perfCountsToHist` of the missing `perfUtils`
module. Converts counter deltas to `{count, freqs}` histograms per
sub-metric, with all frequencies defined as `0` when the count is `0`. -/
def perfCountsToHist (c : SSPerfDiffType) : SSPerfHistType :=
  { svMain := perfCounterToHist c.svMain
    svNetwork := perfCounterToHist c.svNetwork
    svSync := perfCounterToHist c.svSync }

/-- Modelled from the spec: `PERF_DATA_MIN_TICKS` of the missing
`statsConfigs` module. The spec fixes only that it is a positive minimum
tick-count threshold; the concrete value is immaterial to the claims. -/
def PERF_DATA_MIN_TICKS : Nat := 1000

/-- Modelled from the spec: `PERF_DATA_BUCKET_COUNT` of the missing
`statsConfigs` module (the fixed number of histogram buckets). -/
def PERF_DATA_BUCKET_COUNT : Nat := 15

/-- Modelled from the spec: the minimum resolution interval
(`PERF_DATA_INITIAL_RESOLUTION` of the missing `statsConfigs` module) in
milliseconds; the spec indicates a 5-minute save resolution. -/
def PERF_DATA_INITIAL_RES : Nat := 5 * 60 * 1000

/-- One entry of the stats log (`SSLogType` element): boot marker, close
marker, or data snapshot. For a data snapshot, `fxsMemory`/`nodeMemory` are
`none` when the source stored `null`. -/
inductive SSLogEntry where
  | svBoot (ts : Nat) (bootTime : Nat)
  | svClose (ts : Nat) (reason : String)
  | data (ts : Nat) (players : Nat) (fxsMemory : Option Rat)
         (nodeMemory : Option Rat) (perf : SSPerfHistType)
deriving DecidableEq, Repr

namespace SSLogEntry

/-- The `ts` field, present on every entry type. -/
def ts : SSLogEntry → Nat
  | .svBoot t _ => t
  | .svClose t _ => t
  | .data t _ _ _ _ => t

/-- `entry.type === 'svBoot'`. -/
def isBootEntry : SSLogEntry → Bool
  | .svBoot _ _ => true
  | _ => false

/-- `entry.type === 'svClose'`. -/
def isCloseEntry : SSLogEntry → Bool
  | .svClose _ _ => true
  | _ => false

/-- `isSSLogDataType(entry)`. -/
def isDataEntry : SSLogEntry → Bool
  | .data _ _ _ _ _ => true
  | _ => false

end SSLogEntry

/-- The mutable fields of the `PerformanceCollector` class. -/
structure CollectorState where
  statsLog : List SSLogEntry
  lastFxsMemory : Option Rat
  lastNodeMemory : Option (Rat × Rat)
  lastPerfBoundaries : Option SSPerfBoundariesType
  lastPerfCounts : Option SSPerfCountsType
  lastPerfSaved : Option (Nat × SSPerfCountsType)
deriving DecidableEq, Repr

/-- The collector state right after construction: empty log, all caches
unset. -/
def initialCollectorState : CollectorState :=
  { statsLog := [], lastFxsMemory := none, lastNodeMemory := none,
    lastPerfBoundaries := none, lastPerfCounts := none, lastPerfSaved := none }

/-- Modelled from the spec: `optimizeStatsLog` of the missing
`statsLogOptimizer` module. The spec fixes only its invariants (order
preserved, boot/close markers never dropped, idempotent, size monotone) and
leaves the thinning schedule as tunable policy; we model the trivial policy
that thins nothing, which satisfies every stated invariant. -/
def optimizeStatsLog (log : List SSLogEntry) : List SSLogEntry := log

/-- `saveStatsHistory()`: runs the optimizer over the log and writes the file.
The model returns the optimized log (the persisted content). -/
def saveStatsHistory (st : CollectorState) : List SSLogEntry :=
  optimizeStatsLog st.statsLog

/-! ## Performance collector: operations -/

/-- `resetPerfState()`: clear the last counters and the last-saved baseline
(boundaries are kept). -/
def resetPerfState (st : CollectorState) : CollectorState :=
  { st with lastPerfCounts := none, lastPerfSaved := none }

/-- `resetMemoryState()`: clear both memory caches. -/
def resetMemoryState (st : CollectorState) : CollectorState :=
  { st with lastNodeMemory := none, lastFxsMemory := none }

/-- `logServerBoot(bootTime)`. Returns the new state and whether
`saveStatsHistory()` was invoked. -/
def logServerBoot (st : CollectorState) (now bootTime : Nat) : CollectorState × Bool :=
  let st := resetMemoryState (resetPerfState st)
  let log :=
    match st.statsLog.getLast? with
    | some e => if e.isBootEntry then st.statsLog.dropLast else st.statsLog
    | none => st.statsLog
  ({ st with statsLog := log ++ [SSLogEntry.svBoot now bootTime] }, true)

/-- `logServerClose(reason)`. Returns the new state and whether
`saveStatsHistory()` was invoked (the duplicate-close and dangling-boot
branches return before saving). -/
def logServerClose (st : CollectorState) (now : Nat) (reason : String) : CollectorState × Bool :=
  let st := resetMemoryState (resetPerfState st)
  match st.statsLog.getLast? with
  | some e =>
    if e.isCloseEntry then (st, false)
    else if e.isBootEntry then ({ st with statsLog := st.statsLog.dropLast }, false)
    else ({ st with statsLog := st.statsLog ++ [SSLogEntry.svClose now reason] }, true)
  | none => ({ st with statsLog := st.statsLog ++ [SSLogEntry.svClose now reason] }, true)

/-- The three cache fields surfaced by `getRecentStats()` (the join/leave
tally comes from an external collaborator and is out of scope). -/
structure RecentStats where
  fxsMemory : Option Rat
  nodeMemory : Option (Rat × Rat)
  perf : Option SSPerfHistType
deriving DecidableEq, Repr

/-- `getRecentStats()`: pure read of the cached values; the perf histogram is
recomputed from the raw cached counters when they are set. -/
def getRecentStats (st : CollectorState) : RecentStats :=
  { fxsMemory := st.lastFxsMemory
    nodeMemory := st.lastNodeMemory
    perf := st.lastPerfCounts.map (fun c => perfCountsToHist (countsAsDiff c)) }

/-- How one `collectStats()` cycle ended. -/
inductive CollectOutcome where
  | precondSkip
  | badHostThrow
  | fetchError
  | notEnoughTicks
  | notEnoughTime
  | saved
deriving DecidableEq, Repr

/-- The first-collection / boundary-change check of `collectStats()`: when any
of the three caches is unset, adopt the fetched boundaries and reset the perf
state; when all are set but the fetched boundaries differ from the cached
ones, additionally wipe the whole log. -/
def applyBoundaryCheck (st : CollectorState) (b : SSPerfBoundariesType) : CollectorState :=
  if st.lastPerfCounts.isNone || st.lastPerfSaved.isNone || st.lastPerfBoundaries.isNone then
    resetPerfState { st with lastPerfBoundaries := some b }
  else if st.lastPerfBoundaries ≠ some b then
    resetPerfState { st with statsLog := [], lastPerfBoundaries := some b }
  else st

/-- The counter-reset check of `collectStats()`: if the cached last full
counters exceed the fresh `svMain` count, reset both perf caches; otherwise,
if the last-saved baseline exceeds it, clear only the baseline. -/
def applyCounterResetCheck (st : CollectorState) (m : SSPerfCountsType) : CollectorState :=
  if (match st.lastPerfCounts with
      | some c => decide (m.svMain.count < c.svMain.count)
      | none => false) then
    resetPerfState st
  else if (match st.lastPerfSaved with
      | some s => decide (m.svMain.count < s.2.svMain.count)
      | none => false) then
    { st with lastPerfSaved := none }
  else st

/-- `ticksTooLow` is the minimum-tick rejection condition of `collectStats()`:
any of the three sub-metrics below `PERF_DATA_MIN_TICKS`. -/
def ticksTooLow (m : SSPerfCountsType) : Bool :=
  decide (m.svMain.count < PERF_DATA_MIN_TICKS)
    || decide (m.svNetwork.count < PERF_DATA_MIN_TICKS)
    || decide (m.svSync.count < PERF_DATA_MIN_TICKS)

/-- The body of `collectStats()` from the minimum-ticks check onward, applied
to the state after the memory-fetch update and to a successfully fetched
boundaries/counters pair. -/
def collectStatsCore (st1 : CollectorState) (now : Nat)
    (perfBoundaries : SSPerfBoundariesType) (perfMetrics : SSPerfCountsType)
    (players : Nat) : CollectorState × CollectOutcome :=
  if ticksTooLow perfMetrics then
    (st1, .notEnoughTicks)
  else
    let st2 := applyBoundaryCheck st1 perfBoundaries
    let st3 := applyCounterResetCheck st2 perfMetrics
    let latestPerfHist := perfCountsToHist (diffPerfs perfMetrics st3.lastPerfCounts)
    let st4 := { st3 with lastPerfCounts := some perfMetrics }
    let perfHistToSave : Option SSPerfHistType :=
      match st4.lastPerfSaved with
      | none => some latestPerfHist
      | some saved =>
        if PERF_DATA_INITIAL_RES ≤ now - saved.1 then
          some (perfCountsToHist (diffPerfs perfMetrics (some saved.2)))
        else none
    match perfHistToSave with
    | none => (st4, .notEnoughTime)
    | some hist =>
      ({ st4 with
          lastPerfSaved := some (now, perfMetrics),
          statsLog := st4.statsLog ++
            [SSLogEntry.data now players st4.lastFxsMemory
              (st4.lastNodeMemory.map Prod.fst) hist] }, .saved)

/-- One `collectStats()` cycle. The asynchronous inputs are passed in
explicitly: `preOk` stands for the three precondition checks (fxserver child
process present, playerlist manager present, health monitor `ONLINE`),
`hostOk` for the fxserver host being a nonempty string, `fetchPerf` for the
settled result of `fetchRawPerfData` (boundaries and raw counters, or a
rejection), `fetchMem` for the settled result of `fetchFxsMemory`, and
`players` for the current online count. Returns the new state and the
outcome; outcomes `badHostThrow` and `fetchError` correspond to the two
thrown errors, and `saved` is the only outcome that persists the log. -/
def collectStats (st : CollectorState) (now : Nat) (preOk hostOk : Bool)
    (fetchPerf : Except Unit (SSPerfBoundariesType × SSPerfCountsType))
    (fetchMem : Option Rat) (players : Nat) : CollectorState × CollectOutcome :=
  if !preOk then (st, .precondSkip)
  else if !hostOk then (st, .badHostThrow)
  else
    let st1 := match fetchMem with
      | some v => { st with lastFxsMemory := some v }
      | none => st
    match fetchPerf with
    | .error _ => (st1, .fetchError)
    | .ok (perfBoundaries, perfMetrics) =>
      collectStatsCore st1 now perfBoundaries perfMetrics players

/-- The mutating entry points of the collector, with their asynchronous
inputs made explicit. -/
inductive CollectorOp where
  | boot (now bootTime : Nat)
  | close (now : Nat) (reason : String)
  | collect (now : Nat) (preOk hostOk : Bool)
      (fetchPerf : Except Unit (SSPerfBoundariesType × SSPerfCountsType))
      (fetchMem : Option Rat) (players : Nat)

/-- Apply one collector operation (discarding the save/outcome flag). -/
def applyCollectorOp (st : CollectorState) : CollectorOp → CollectorState
  | .boot now bt => (logServerBoot st now bt).1
  | .close now r => (logServerClose st now r).1
  | .collect now p h fp fm pl => (collectStats st now p h fp fm pl).1

/-- Run a sequence of collector operations left to right. -/
def runCollectorOps (st : CollectorState) (ops : List CollectorOp) : CollectorState :=
  ops.foldl applyCollectorOp st

/-! ## Performance collector: summary -/

/-- Model of `d3array.median`: drop null values, sort ascending, and take the
0.5 quantile with linear interpolation (for an even number of values, the
mean of the two middle ones); `none` when no values remain. -/
def d3median (values : List (Option Rat)) : Option Rat :=
  let nums := values.filterMap id
  let sorted := nums.mergeSort (fun a b => decide (a ≤ b))
  match sorted with
  | [] => none
  | _ => some ((sorted.getD ((sorted.length - 1) / 2) 0 + sorted.getD (sorted.length / 2) 0) / 2)

/-- The accumulator of the `getServerPerfSummary()` scan loop. -/
structure SummaryAcc where
  totalSnapshots : Nat
  players : List (Option Rat)
  fxsMemory : List (Option Rat)
  nodeMemory : List (Option Rat)
  cumTicks : Rat
  cumBuckets : List Rat
deriving DecidableEq, Repr

/-- Initial accumulator: `Array(PERF_DATA_BUCKET_COUNT).fill(0)` and zero
counters. -/
def initSummaryAcc : SummaryAcc :=
  { totalSnapshots := 0, players := [], fxsMemory := [], nodeMemory := [],
    cumTicks := 0, cumBuckets := List.replicate PERF_DATA_BUCKET_COUNT 0 }

/-- Reconstructed absolute tick count of bucket `b` of one histogram:
`freqs[b] * count`. -/
def bucketTicks (h : PerfHist) (b : Nat) : Rat :=
  h.freqs.getD b 0 * (h.count : Rat)

/-- Total reconstructed tick count of one histogram over all buckets. -/
def snapTicks (h : PerfHist) : Rat :=
  ((List.range PERF_DATA_BUCKET_COUNT).map (bucketTicks h)).sum

/-- The filter applied to each log entry by the summary scan: a data entry
whose timestamp lies within the 6-hour window and whose `svMain` tick count
meets the minimum-ticks threshold. -/
def qualifiesForSummary (now : Nat) (e : SSLogEntry) : Bool :=
  !decide ((e.ts : Int) < (now : Int) - 6 * 60 * 60 * 1000) &&
    (match e with
     | .data _ _ _ _ perf => !decide (perf.svMain.count < (PERF_DATA_MIN_TICKS : Int))
     | _ => false)

/-- The `svMain` histogram of a data entry (dummy on markers, which the scan
never reaches). -/
def entryPerfMain : SSLogEntry → PerfHist
  | .data _ _ _ _ perf => perf.svMain
  | _ => { count := 0, freqs := [] }

/-- The `players` value a data entry contributes to the median input. -/
def entryPlayers : SSLogEntry → Option Rat
  | .data _ p _ _ _ => some (p : Rat)
  | _ => none

/-- The `fxsMemory` value a data entry contributes to the median input. -/
def entryFxsMemory : SSLogEntry → Option Rat
  | .data _ _ m _ _ => m
  | _ => none

/-- The `nodeMemory` value a data entry contributes to the median input. -/
def entryNodeMemory : SSLogEntry → Option Rat
  | .data _ _ _ m _ => m
  | _ => none

/-- One step of the summary scan loop: skip non-qualifying entries, otherwise
push the players/memory values and accumulate the reconstructed tick counts
into `cumTicks` and the per-bucket totals. -/
def summaryStep (now : Nat) (acc : SummaryAcc) (e : SSLogEntry) : SummaryAcc :=
  if qualifiesForSummary now e then
    { totalSnapshots := acc.totalSnapshots + 1
      players := acc.players ++ [entryPlayers e]
      fxsMemory := acc.fxsMemory ++ [entryFxsMemory e]
      nodeMemory := acc.nodeMemory ++ [entryNodeMemory e]
      cumTicks := acc.cumTicks + snapTicks (entryPerfMain e)
      cumBuckets := (List.range PERF_DATA_BUCKET_COUNT).map
        (fun b => acc.cumBuckets.getD b 0 + bucketTicks (entryPerfMain e) b) }
  else acc

/-- The record returned by `getServerPerfSummary()` in the sufficient-data
case. -/
structure PerfSummary where
  snaps : Nat
  freqs : List Rat
  players : Option Rat
  fxsMemory : Option Rat
  nodeMemory : Option Rat
deriving DecidableEq, Repr

/-- `getServerPerfSummary()`: scan the retained log, require at least 36
qualifying snapshots, then report each cumulative bucket divided by the
cumulative tick total plus the three medians. -/
def getServerPerfSummary (st : CollectorState) (now : Nat) : Option PerfSummary :=
  let acc := st.statsLog.foldl (summaryStep now) initSummaryAcc
  if acc.totalSnapshots < 36 then none
  else some
    { snaps := acc.totalSnapshots
      freqs := acc.cumBuckets.map (fun x => x / acc.cumTicks)
      players := d3median acc.players
      fxsMemory := d3median acc.fxsMemory
      nodeMemory := d3median acc.nodeMemory }

/-- The summary as the spec words it (the refinement target for claim C2):
filter the log to the qualifying snapshots; if fewer than 36 remain, report
nothing; otherwise each bucket frequency is the sum over snapshots of
`freq * count`, divided by the total reconstructed tick sum, and the medians
are taken over the qualifying snapshots. -/
def specServerPerfSummary (st : CollectorState) (now : Nat) : Option PerfSummary :=
  let q := st.statsLog.filter (qualifiesForSummary now)
  if q.length < 36 then none
  else some
    { snaps := q.length
      freqs := (List.range PERF_DATA_BUCKET_COUNT).map
        (fun b => (q.map (fun e => bucketTicks (entryPerfMain e) b)).sum /
          (q.map (fun e => snapTicks (entryPerfMain e))).sum)
      players := d3median (q.map entryPlayers)
      fxsMemory := d3median (q.map entryFxsMemory)
      nodeMemory := d3median (q.map entryNodeMemory) }

/-! ## Auxiliary definitions for the theorems -/

/-- Two log entries are offending neighbours when both are boot markers or
both are close markers. -/
def sameKind (a b : SSLogEntry) : Bool :=
  (a.isBootEntry && b.isBootEntry) || (a.isCloseEntry && b.isCloseEntry)

/-- No two consecutive entries of the log are both boot markers or both close
markers. -/
def noConsecDup : List SSLogEntry → Bool
  | [] => true
  | [_] => true
  | a :: b :: rest => !sameKind a b && noConsecDup (b :: rest)

/-- A concrete data entry and collector state used by the counterexamples. -/
def cexDataEntry : SSLogEntry :=
  SSLogEntry.data 0 0 none none
    { svMain := { count := 0, freqs := [] }
      svNetwork := { count := 0, freqs := [] }
      svSync := { count := 0, freqs := [] } }

/-- A state with a nonempty log, cached boundaries, but no cached counters
(exactly the situation right after a server boot or a cache load). -/
def cexStateC5 : CollectorState :=
  { statsLog := [cexDataEntry], lastFxsMemory := none, lastNodeMemory := none,
    lastPerfBoundaries := some ([1]), lastPerfCounts := none, lastPerfSaved := none }

/-- Raw counters meeting the minimum-ticks threshold. -/
def cexGoodCounts : SSPerfCountsType :=
  { svMain := { count := 1000, buckets := [] }
    svNetwork := { count := 1000, buckets := [] }
    svSync := { count := 1000, buckets := [] } }

/-- The value of the fxserver-memory cache after the settled memory fetch is
applied: overwritten on success, kept on failure. -/
def updatedFxsMemory (st : CollectorState) (fm : Option Rat) : Option Rat :=
  match fm with
  | some v => some v
  | none => st.lastFxsMemory

/-- Raw counters with a higher cumulative count than `cexGoodCounts`. -/
def cexBigCounts : SSPerfCountsType :=
  { svMain := { count := 2000, buckets := [] }
    svNetwork := { count := 2000, buckets := [] }
    svSync := { count := 2000, buckets := [] } }

/-- A fully-cached state whose counters exceed a fresh fetch of
`cexGoodCounts` (i.e. the counter reset scenario). -/
def cexStateC7 : CollectorState :=
  { statsLog := [], lastFxsMemory := none, lastNodeMemory := none,
    lastPerfBoundaries := some ([1]), lastPerfCounts := some cexBigCounts,
    lastPerfSaved := some (0, cexBigCounts) }

/-- The three caches surfaced by `getRecentStats` are all unset. -/
def memCachesCleared (st : CollectorState) : Prop :=
  st.lastFxsMemory = none ∧ st.lastNodeMemory = none ∧ st.lastPerfCounts = none

/-- Operations that cannot repopulate any of the three caches: boot and close
(which clear them), and collection cycles whose memory fetch failed and which
abort before the counter caches are touched (failed preconditions, invalid
host, rejected counter fetch, or insufficient ticks). -/
def nonRepopulatingOp : CollectorOp → Bool
  | .boot _ _ => true
  | .close _ _ => true
  | .collect _ p h fp fm _ =>
    fm.isNone && (!p || !h ||
      (match fp with
       | .error _ => true
       | .ok (_, m) => ticksTooLow m))

/-! ## Health monitor theorems -/

/-- Helper: the stopwatch of a monitor right after `markHealthy` is started at
that instant. -/
theorem markHealthy_sw (m : HealthEventMonitor) (t : Nat) :
    (m.markHealthy t).swLastHealthyEvent = { m.swLastHealthyEvent with tsStart := some t } := rfl

/-- Helper: the state reported by `status` for a monitor whose stopwatch was
started at `t`, as a pure comparison of the elapsed seconds against the two
thresholds. -/
theorem status_state_of_started (m : HealthEventMonitor) (now t : Nat)
    (h : m.swLastHealthyEvent.tsStart = some t) :
    (m.status now).state =
      if m.fatalLimit ≤ (now - t) / 1000 then MonitorState.FATAL
      else if m.delayLimit ≤ (now - t) / 1000 then MonitorState.DELAYED
      else MonitorState.HEALTHY := by
  simp [HealthEventMonitor.status, Stopwatch.started, Stopwatch.isOver, Stopwatch.elapsed, h]

/-- Helper: `markHealthy` keeps the configured thresholds. -/
theorem markHealthy_limits (m : HealthEventMonitor) (t : Nat) :
    (m.markHealthy t).delayLimit = m.delayLimit ∧ (m.markHealthy t).fatalLimit = m.fatalLimit :=
  ⟨rfl, rfl⟩

/-- C1 (amended: the thresholds must additionally satisfy `0 < delay`; with a
zero delay threshold the monitor reports `DELAYED`, never `HEALTHY`, right
after a healthy mark). For every threshold pair with `0 < delay < fatal`: the
monitor starts `PENDING`; immediately after `markHealthy()` the state is
`HEALTHY`; once the elapsed seconds since the last `markHealthy()` reach
`delay` but are below `fatal` the state is `DELAYED`; once they reach `fatal`
it is `FATAL`; and a fresh `markHealthy()` at any point returns the state to
`HEALTHY`. -/
theorem healthMonitor_lifecycle (delay fatal : Nat) (hd : 0 < delay) (hf : delay < fatal) :
    (∀ now, ((HealthEventMonitor.init delay fatal).status now).state = MonitorState.PENDING)
    ∧ (∀ m : HealthEventMonitor, m.delayLimit = delay → m.fatalLimit = fatal →
        (∀ t, ((m.markHealthy t).status t).state = MonitorState.HEALTHY)
        ∧ (∀ t now, delay ≤ (now - t) / 1000 → (now - t) / 1000 < fatal →
            ((m.markHealthy t).status now).state = MonitorState.DELAYED)
        ∧ (∀ t now, fatal ≤ (now - t) / 1000 →
            ((m.markHealthy t).status now).state = MonitorState.FATAL)) := by
  constructor
  · intro now
    simp [HealthEventMonitor.init, HealthEventMonitor.status, Stopwatch.new, Stopwatch.started]
  · intro m hdl hfl
    subst hdl
    subst hfl
    refine ⟨fun t => ?_, fun t now h1 h2 => ?_, fun t now h1 => ?_⟩
    · rw [status_state_of_started (m.markHealthy t) t t rfl,
        (markHealthy_limits m t).1, (markHealthy_limits m t).2]
      rw [if_neg (by omega), if_neg (by omega)]
    · rw [status_state_of_started (m.markHealthy t) now t rfl,
        (markHealthy_limits m t).1, (markHealthy_limits m t).2]
      rw [if_neg (by omega), if_pos (by omega)]
    · rw [status_state_of_started (m.markHealthy t) now t rfl,
        (markHealthy_limits m t).1, (markHealthy_limits m t).2]
      rw [if_pos (by omega)]

/-- Witness for `healthMonitor_lifecycle` at `delay = 1`, `fatal = 2`. -/
theorem healthMonitor_lifecycle_witness :
    ((HealthEventMonitor.init 1 2).status 7).state = MonitorState.PENDING
    ∧ (((HealthEventMonitor.init 1 2).markHealthy 5).status 5).state = MonitorState.HEALTHY
    ∧ (((HealthEventMonitor.init 1 2).markHealthy 5).status 1500).state = MonitorState.DELAYED
    ∧ (((HealthEventMonitor.init 1 2).markHealthy 5).status 9000).state = MonitorState.FATAL :=
  ⟨(healthMonitor_lifecycle 1 2 (by decide) (by decide)).1 7,
   ((healthMonitor_lifecycle 1 2 (by decide) (by decide)).2 (HealthEventMonitor.init 1 2) rfl rfl).1 5,
   ((healthMonitor_lifecycle 1 2 (by decide) (by decide)).2 (HealthEventMonitor.init 1 2) rfl rfl).2.1 5 1500
     (by decide) (by decide),
   ((healthMonitor_lifecycle 1 2 (by decide) (by decide)).2 (HealthEventMonitor.init 1 2) rfl rfl).2.2 5 9000
     (by decide)⟩

/-- Counterexample to C1 as stated: the pair `(delay, fatal) = (0, 1)`
satisfies `delay < fatal`, yet immediately after `markHealthy()` the state is
`DELAYED`, not `HEALTHY` (elapsed `0` is already `≥ delay`). -/
theorem healthMonitor_zero_delay_cex :
    (0 < 1)
    ∧ (((HealthEventMonitor.init 0 1).markHealthy 5).status 5).state = MonitorState.DELAYED
    ∧ (((HealthEventMonitor.init 0 1).markHealthy 5).status 5).state ≠ MonitorState.HEALTHY := by
  refine ⟨by decide, by decide, by decide⟩

/-- Helper: across any operation sequence, the first-healthy timestamp is set
exactly when a `markHealthy` happened since the last reset (folded from the
monitor's starting condition). -/
theorem runMonitorOps_firstHealthy_isSome (ops : List MonitorOp) (m : HealthEventMonitor) :
    (runMonitorOps m ops).firstHealthyEvent.isSome =
      ops.foldl (fun _acc op => match op with | .mark _ => true | .resetAt _ => false)
        m.firstHealthyEvent.isSome := by
  induction ops generalizing m with
  | nil => rfl
  | cons op rest ih =>
    cases op with
    | mark t =>
      have : (runMonitorOps m (MonitorOp.mark t :: rest)) = runMonitorOps (m.markHealthy t) rest := rfl
      rw [this, ih]
      simp [HealthEventMonitor.markHealthy]
    | resetAt t =>
      have : (runMonitorOps m (MonitorOp.resetAt t :: rest)) = runMonitorOps (m.reset t) rest := rfl
      rw [this, ih]
      simp [HealthEventMonitor.reset]

/-- Helper: when every `markHealthy` in the sequence carries a positive
timestamp, the recorded first-healthy timestamp (if any) is positive. -/
theorem runMonitorOps_firstHealthy_pos (ops : List MonitorOp) (m : HealthEventMonitor)
    (hm : ∀ f, m.firstHealthyEvent = some f → 0 < f)
    (hops : ∀ t, MonitorOp.mark t ∈ ops → 0 < t) :
    ∀ f, (runMonitorOps m ops).firstHealthyEvent = some f → 0 < f := by
  induction ops generalizing m with
  | nil => exact hm
  | cons op rest ih =>
    cases op with
    | mark t =>
      have hstep : ∀ f, (m.markHealthy t).firstHealthyEvent = some f → 0 < f := by
        intro f hf
        simp only [HealthEventMonitor.markHealthy] at hf
        cases hme : m.firstHealthyEvent with
        | none =>
          rw [hme] at hf
          simp [Option.getD] at hf
          exact hf ▸ hops t (by simp)
        | some g =>
          rw [hme] at hf
          simp [Option.getD] at hf
          exact hf ▸ hm g hme
      exact ih (m.markHealthy t) hstep (fun t ht => hops t (by simp [ht]))
    | resetAt t =>
      have hstep : ∀ f, (m.reset t).firstHealthyEvent = some f → 0 < f := by
        intro f hf
        simp [HealthEventMonitor.reset] at hf
      exact ih (m.reset t) hstep (fun t ht => hops t (by simp [ht]))

/-- C9 (amended: because the source reads `firstHealthyEvent` through a JS
truthiness test, a first healthy timestamp of exactly `0` is reported as
`Infinity`; the claimed iff therefore additionally requires every
`markHealthy` timestamp to be positive, which holds for any real wall clock).
`markHealthy()` restarts the internal stopwatch; it records the first-ever
healthy timestamp only on its first invocation and later calls leave it
unchanged; and, for positive timestamps, `status.secsSinceFirst` is
`Infinity` iff `markHealthy()` was never called since construction or the
last `reset()`, and otherwise is the floored number of seconds since the
first healthy timestamp. -/
theorem markHealthy_first_and_secsSinceFirst (d f : Nat) (ops : List MonitorOp) (now : Nat)
    (hpos : ∀ t, MonitorOp.mark t ∈ ops → 0 < t) :
    (∀ (m : HealthEventMonitor) (t : Nat),
        (m.markHealthy t).swLastHealthyEvent.tsStart = some t)
    ∧ (∀ (m : HealthEventMonitor) (t : Nat), m.firstHealthyEvent = none →
        (m.markHealthy t).firstHealthyEvent = some t)
    ∧ (∀ (m : HealthEventMonitor) (t ft : Nat), m.firstHealthyEvent = some ft →
        (m.markHealthy t).firstHealthyEvent = some ft)
    ∧ ((((runMonitorOps (HealthEventMonitor.init d f) ops).status now).secsSinceFirst = none)
        ↔ markedSinceReset ops = false)
    ∧ (∀ ft, (runMonitorOps (HealthEventMonitor.init d f) ops).firstHealthyEvent = some ft →
        ((runMonitorOps (HealthEventMonitor.init d f) ops).status now).secsSinceFirst =
          some ((now - ft) / 1000)) := by
  refine ⟨fun m t => rfl, ?_, ?_, ?_, ?_⟩
  · intro m t hm
    simp [HealthEventMonitor.markHealthy, hm]
  · intro m t ft hm
    simp [HealthEventMonitor.markHealthy, hm]
  · have hSome := runMonitorOps_firstHealthy_isSome ops (HealthEventMonitor.init d f)
    rw [show (HealthEventMonitor.init d f).firstHealthyEvent.isSome = false from rfl] at hSome
    have hPos := runMonitorOps_firstHealthy_pos ops (HealthEventMonitor.init d f)
      (by intro g hg; simp [HealthEventMonitor.init] at hg) hpos
    constructor
    · intro hnone
      cases hfe : (runMonitorOps (HealthEventMonitor.init d f) ops).firstHealthyEvent with
      | none =>
        rw [hfe] at hSome
        simp only [Option.isSome_none] at hSome
        rw [markedSinceReset]
        exact hSome.symm
      | some g =>
        have hg := hPos g hfe
        simp [HealthEventMonitor.status, hfe, Nat.pos_iff_ne_zero.mp hg] at hnone
    · intro hmark
      rw [markedSinceReset] at hmark
      rw [hmark] at hSome
      cases hfe : (runMonitorOps (HealthEventMonitor.init d f) ops).firstHealthyEvent with
      | none => simp [HealthEventMonitor.status, hfe]
      | some g => rw [hfe] at hSome; simp at hSome
  · intro ft hft
    have hPos := runMonitorOps_firstHealthy_pos ops (HealthEventMonitor.init d f)
      (by intro g hg; simp [HealthEventMonitor.init] at hg) hpos
    have hpos2 := hPos ft hft
    simp [HealthEventMonitor.status, hft, Nat.pos_iff_ne_zero.mp hpos2]

/-- Witness for `markHealthy_first_and_secsSinceFirst`: one `markHealthy` at
time `2000`, status read at `5500`. -/
theorem markHealthy_first_witness :
    (((runMonitorOps (HealthEventMonitor.init 1 2) [MonitorOp.mark 2000]).status 5500).secsSinceFirst
        = none ↔ markedSinceReset [MonitorOp.mark 2000] = false)
    ∧ ((runMonitorOps (HealthEventMonitor.init 1 2) [MonitorOp.mark 2000]).status 5500).secsSinceFirst
        = some 3 :=
  ⟨(markHealthy_first_and_secsSinceFirst 1 2 [MonitorOp.mark 2000] 5500
      (by intro t ht; simp at ht; omega)).2.2.2.1,
   (markHealthy_first_and_secsSinceFirst 1 2 [MonitorOp.mark 2000] 5500
      (by intro t ht; simp at ht; omega)).2.2.2.2 2000 rfl⟩

/-- Counterexample to C9 as stated: a `markHealthy` at wall-clock timestamp
`0` (the epoch) records a first-healthy timestamp, yet `status.secsSinceFirst`
still reports `Infinity`, because the source tests the stored timestamp for
truthiness and `0` is falsy. -/
theorem secsSinceFirst_epoch_cex :
    markedSinceReset [MonitorOp.mark 0] = true
    ∧ (runMonitorOps (HealthEventMonitor.init 1 2) [MonitorOp.mark 0]).firstHealthyEvent = some 0
    ∧ ((runMonitorOps (HealthEventMonitor.init 1 2) [MonitorOp.mark 0]).status 1500).secsSinceFirst
        = none := by
  refine ⟨by decide, by decide, by decide⟩

/-! ## Collector log theorems -/

/-- C3 (amended: the log is persisted only in the branch that appends a
`CloseEvent`; the duplicate-close branch and the dangling-boot branch return
before `saveStatsHistory()` is invoked). `logServerClose(reason)` always
resets the perf and memory caches; if the last entry is a `CloseEvent` it
changes nothing further; if the last entry is a `BootEvent` it removes that
entry, appends nothing and does not persist; otherwise it appends a new
`CloseEvent` and persists. `logServerBoot` immediately followed by
`logServerClose` on an empty log leaves the log empty. -/
theorem logServerClose_branches (st : CollectorState) (now : Nat) (reason : String) :
    ((logServerClose st now reason).1.lastPerfCounts = none
      ∧ (logServerClose st now reason).1.lastPerfSaved = none
      ∧ (logServerClose st now reason).1.lastFxsMemory = none
      ∧ (logServerClose st now reason).1.lastNodeMemory = none)
    ∧ (∀ e, st.statsLog.getLast? = some e → e.isCloseEntry = true →
        (logServerClose st now reason).1.statsLog = st.statsLog
          ∧ (logServerClose st now reason).2 = false)
    ∧ (∀ e, st.statsLog.getLast? = some e → e.isBootEntry = true →
        (logServerClose st now reason).1.statsLog = st.statsLog.dropLast
          ∧ (logServerClose st now reason).2 = false)
    ∧ ((∀ e, st.statsLog.getLast? = some e → e.isCloseEntry = false ∧ e.isBootEntry = false) →
        (logServerClose st now reason).1.statsLog = st.statsLog ++ [SSLogEntry.svClose now reason]
          ∧ (logServerClose st now reason).2 = true)
    ∧ (∀ bootT bootTime closeT, st.statsLog = [] →
        (logServerClose (logServerBoot st bootT bootTime).1 closeT reason).1.statsLog = []) := by
  refine ⟨?_, ?_, ?_, ?_, ?_⟩
  · unfold logServerClose resetMemoryState resetPerfState
    cases hl : st.statsLog.getLast? with
    | none => simp [hl]
    | some e =>
      by_cases hc : e.isCloseEntry = true
      · simp [hl, hc]
      · by_cases hb : e.isBootEntry = true <;> simp [hl, hb, hc]
  · intro e hl hc
    unfold logServerClose resetMemoryState resetPerfState
    simp [hl, hc]
  · intro e hl hb
    unfold logServerClose resetMemoryState resetPerfState
    have hc : e.isCloseEntry = false := by
      cases e <;> simp_all [SSLogEntry.isBootEntry, SSLogEntry.isCloseEntry]
    simp [hl, hb, hc]
  · intro h
    unfold logServerClose resetMemoryState resetPerfState
    cases hl : st.statsLog.getLast? with
    | none => simp [hl]
    | some e =>
      have := h e hl
      simp [hl, this.1, this.2]
  · intro bootT bootTime closeT hst
    unfold logServerBoot logServerClose resetMemoryState resetPerfState
    simp [hst, SSLogEntry.isCloseEntry, SSLogEntry.isBootEntry]

/-- Counterexample to C3 as stated: booting on an empty log then immediately
closing pops the dangling `BootEvent` (the log becomes empty), but the
operation returns before `saveStatsHistory()`, so the resulting log is not
persisted. -/
theorem logServerClose_no_persist_cex :
    (logServerBoot initialCollectorState 0 100).1.statsLog = [SSLogEntry.svBoot 0 100]
    ∧ (logServerClose (logServerBoot initialCollectorState 0 100).1 1 "crash").1.statsLog = []
    ∧ (logServerClose (logServerBoot initialCollectorState 0 100).1 1 "crash").2 = false := by
  refine ⟨by decide, by decide, by decide⟩

/-- Witness for `logServerClose_branches`: close on a log ending in a data
entry appends a `CloseEvent` and persists. -/
theorem logServerClose_branches_witness :
    (logServerClose initialCollectorState 3 "shutdown").1.statsLog = [SSLogEntry.svClose 3 "shutdown"]
    ∧ (logServerClose initialCollectorState 3 "shutdown").2 = true :=
  (logServerClose_branches initialCollectorState 3 "shutdown").2.2.2.1
    (by intro e he; simp [initialCollectorState] at he)

/-- Helper: appending a single entry that does not clash with the last entry
preserves the invariant. -/
theorem noConsecDup_append_single (l : List SSLogEntry) (e : SSLogEntry)
    (h1 : noConsecDup l = true)
    (h2 : ∀ a, l.getLast? = some a → sameKind a e = false) :
    noConsecDup (l ++ [e]) = true := by
  induction l with
  | nil => rfl
  | cons a t ih =>
    cases t with
    | nil =>
      have hae := h2 a rfl
      show (!sameKind a e && noConsecDup [e]) = true
      simp [hae, noConsecDup]
    | cons b t2 =>
      have h1' : (!sameKind a b && noConsecDup (b :: t2)) = true := h1
      simp only [Bool.and_eq_true, Bool.not_eq_true'] at h1'
      have hrec := ih h1'.2 (fun x hx => h2 x (by rw [List.getLast?_cons_cons]; exact hx))
      show (!sameKind a b && noConsecDup (b :: (t2 ++ [e]))) = true
      simp only [Bool.and_eq_true, Bool.not_eq_true']
      exact ⟨h1'.1, hrec⟩

/-- Helper: removing the last entry preserves the invariant. -/
theorem noConsecDup_dropLast (l : List SSLogEntry) (h : noConsecDup l = true) :
    noConsecDup l.dropLast = true := by
  induction l with
  | nil => rfl
  | cons a t ih =>
    cases t with
    | nil => rfl
    | cons b t2 =>
      have h' : (!sameKind a b && noConsecDup (b :: t2)) = true := h
      simp only [Bool.and_eq_true, Bool.not_eq_true'] at h'
      have ht := ih h'.2
      cases t2 with
      | nil => rfl
      | cons c t3 =>
        show noConsecDup (a :: b :: (c :: t3).dropLast) = true
        have hbd : (b :: c :: t3).dropLast = b :: (c :: t3).dropLast := rfl
        rw [hbd] at ht
        show (!sameKind a b && noConsecDup (b :: (c :: t3).dropLast)) = true
        simp only [Bool.and_eq_true, Bool.not_eq_true']
        exact ⟨h'.1, ht⟩

/-- Helper: under the invariant, the entry before the last one never clashes
with the last one. -/
theorem noConsecDup_dropLast_getLast (l : List SSLogEntry) (a b : SSLogEntry)
    (h : noConsecDup l = true) (hl : l.getLast? = some a)
    (hd : l.dropLast.getLast? = some b) : sameKind b a = false := by
  induction l with
  | nil => simp at hl
  | cons x t ih =>
    cases t with
    | nil => simp at hd
    | cons y t2 =>
      have h' : (!sameKind x y && noConsecDup (y :: t2)) = true := h
      simp only [Bool.and_eq_true, Bool.not_eq_true'] at h'
      cases t2 with
      | nil =>
        simp at hd hl
        subst hd
        subst hl
        exact h'.1
      | cons z t3 =>
        rw [List.getLast?_cons_cons] at hl
        have hdd : (x :: y :: z :: t3).dropLast = x :: (y :: z :: t3).dropLast := rfl
        rw [hdd] at hd
        have hne : (y :: z :: t3).dropLast ≠ [] := by
          simp [List.dropLast]
        rw [show ((y :: z :: t3).dropLast) = ((y :: z :: t3).dropLast) from rfl] at hd
        rcases List.exists_cons_of_ne_nil hne with ⟨u, t4, hu⟩
        rw [hu] at hd
        rw [List.getLast?_cons_cons] at hd
        rw [← hu] at hd
        exact ih h'.2 hl hd

/-- Helper: nothing clashes with a data entry. -/
theorem sameKind_data_right (a : SSLogEntry) (ts pls : Nat) (fx nd : Option Rat)
    (pf : SSPerfHistType) : sameKind a (SSLogEntry.data ts pls fx nd pf) = false := by
  cases a <;> simp [sameKind, SSLogEntry.isBootEntry, SSLogEntry.isCloseEntry]

/-- Helper: `logServerBoot` preserves the no-consecutive-markers invariant. -/
theorem logServerBoot_noConsecDup (st : CollectorState) (now bt : Nat)
    (h : noConsecDup st.statsLog = true) :
    noConsecDup (logServerBoot st now bt).1.statsLog = true := by
  unfold logServerBoot resetMemoryState resetPerfState
  cases hl : st.statsLog.getLast? with
  | none =>
    simp only [hl]
    exact noConsecDup_append_single st.statsLog _ h
      (fun a ha => by rw [hl] at ha; exact absurd ha (by simp))
  | some e =>
    by_cases hb : e.isBootEntry = true
    · simp only [hl, hb, if_pos]
      refine noConsecDup_append_single _ _ (noConsecDup_dropLast _ h) ?_
      intro a ha
      have hae := noConsecDup_dropLast_getLast st.statsLog e a h hl ha
      cases a <;> cases e <;>
        simp_all [sameKind, SSLogEntry.isBootEntry, SSLogEntry.isCloseEntry]
    · simp only [hl, hb, if_neg, Bool.false_eq_true, not_false_iff, ite_false]
      refine noConsecDup_append_single _ _ h ?_
      intro a ha
      rw [hl] at ha
      injection ha with ha
      subst ha
      cases e <;> simp_all [sameKind, SSLogEntry.isBootEntry, SSLogEntry.isCloseEntry]

/-- Helper: `logServerClose` preserves the no-consecutive-markers invariant. -/
theorem logServerClose_noConsecDup (st : CollectorState) (now : Nat) (r : String)
    (h : noConsecDup st.statsLog = true) :
    noConsecDup (logServerClose st now r).1.statsLog = true := by
  unfold logServerClose resetMemoryState resetPerfState
  cases hl : st.statsLog.getLast? with
  | none =>
    simp only [hl]
    exact noConsecDup_append_single st.statsLog _ h
      (fun a ha => by rw [hl] at ha; exact absurd ha (by simp))
  | some e =>
    by_cases hc : e.isCloseEntry = true
    · simp only [hl, hc, if_pos]
      exact h
    · by_cases hb : e.isBootEntry = true
      · simp only [hl, hc, hb, Bool.false_eq_true, not_false_iff, ite_false, if_pos]
        exact noConsecDup_dropLast _ h
      · simp only [hl, hc, hb, Bool.false_eq_true, not_false_iff, ite_false]
        refine noConsecDup_append_single _ _ h ?_
        intro a ha
        rw [hl] at ha
        injection ha with ha
        subst ha
        cases e <;> simp_all [sameKind, SSLogEntry.isBootEntry, SSLogEntry.isCloseEntry]

/-- Helper: the boundary check either keeps the log or wipes it. -/
theorem applyBoundaryCheck_log (st : CollectorState) (b : SSPerfBoundariesType) :
    (applyBoundaryCheck st b).statsLog = st.statsLog ∨ (applyBoundaryCheck st b).statsLog = [] := by
  unfold applyBoundaryCheck resetPerfState
  split_ifs <;> simp

/-- Helper: the counter-reset check never touches the log. -/
theorem applyCounterResetCheck_log (st : CollectorState) (m : SSPerfCountsType) :
    (applyCounterResetCheck st m).statsLog = st.statsLog := by
  unfold applyCounterResetCheck resetPerfState
  split_ifs <;> rfl

/-- Helper: the core of a cycle leaves the log unchanged, wipes it, or
appends a single data entry to the kept or wiped log. -/
theorem collectStatsCore_log_shape (st1 : CollectorState) (now : Nat)
    (b : SSPerfBoundariesType) (m : SSPerfCountsType) (pl : Nat) :
    (collectStatsCore st1 now b m pl).1.statsLog = st1.statsLog
    ∨ (collectStatsCore st1 now b m pl).1.statsLog = []
    ∨ (∃ ts pls fx nd pf,
        (collectStatsCore st1 now b m pl).1.statsLog
            = st1.statsLog ++ [SSLogEntry.data ts pls fx nd pf]
        ∨ (collectStatsCore st1 now b m pl).1.statsLog = [SSLogEntry.data ts pls fx nd pf]) := by
  have hlog : (applyCounterResetCheck (applyBoundaryCheck st1 b) m).statsLog
      = (applyBoundaryCheck st1 b).statsLog := applyCounterResetCheck_log _ m
  unfold collectStatsCore
  by_cases ht : ticksTooLow m = true
  · simp [ht]
  · simp only [ht, Bool.false_eq_true, if_false]
    cases hsv : (applyCounterResetCheck (applyBoundaryCheck st1 b) m).lastPerfSaved with
    | none =>
      simp only [hsv]
      rcases applyBoundaryCheck_log st1 b with h2 | h2
      · refine Or.inr (Or.inr ⟨now, pl,
          (applyCounterResetCheck (applyBoundaryCheck st1 b) m).lastFxsMemory,
          (applyCounterResetCheck (applyBoundaryCheck st1 b) m).lastNodeMemory.map Prod.fst,
          perfCountsToHist (diffPerfs m
            ((applyCounterResetCheck (applyBoundaryCheck st1 b) m).lastPerfCounts)),
          Or.inl ?_⟩)
        simp [hlog, h2]
      · refine Or.inr (Or.inr ⟨now, pl,
          (applyCounterResetCheck (applyBoundaryCheck st1 b) m).lastFxsMemory,
          (applyCounterResetCheck (applyBoundaryCheck st1 b) m).lastNodeMemory.map Prod.fst,
          perfCountsToHist (diffPerfs m
            ((applyCounterResetCheck (applyBoundaryCheck st1 b) m).lastPerfCounts)),
          Or.inr ?_⟩)
        simp [hlog, h2]
    | some saved =>
      by_cases hres : PERF_DATA_INITIAL_RES ≤ now - saved.1
      · simp only [hsv, hres, if_true]
        rcases applyBoundaryCheck_log st1 b with h2 | h2
        · refine Or.inr (Or.inr ⟨now, pl,
            (applyCounterResetCheck (applyBoundaryCheck st1 b) m).lastFxsMemory,
            (applyCounterResetCheck (applyBoundaryCheck st1 b) m).lastNodeMemory.map Prod.fst,
            perfCountsToHist (diffPerfs m (some saved.2)), Or.inl ?_⟩)
          simp [hlog, h2]
        · refine Or.inr (Or.inr ⟨now, pl,
            (applyCounterResetCheck (applyBoundaryCheck st1 b) m).lastFxsMemory,
            (applyCounterResetCheck (applyBoundaryCheck st1 b) m).lastNodeMemory.map Prod.fst,
            perfCountsToHist (diffPerfs m (some saved.2)), Or.inr ?_⟩)
          simp [hlog, h2]
      · simp only [hsv, hres, if_false]
        rcases applyBoundaryCheck_log st1 b with h2 | h2
        · left
          simp [hlog, h2]
        · right
          left
          simp [hlog, h2]

/-- Helper: a full `collectStats` cycle leaves the log unchanged, wipes it,
or appends a single data entry. -/
theorem collectStats_log_shape (st : CollectorState) (now : Nat) (p h : Bool)
    (fp : Except Unit (SSPerfBoundariesType × SSPerfCountsType))
    (fm : Option Rat) (pl : Nat) :
    (collectStats st now p h fp fm pl).1.statsLog = st.statsLog
    ∨ (collectStats st now p h fp fm pl).1.statsLog = []
    ∨ (∃ ts pls fx nd pf,
        (collectStats st now p h fp fm pl).1.statsLog
            = st.statsLog ++ [SSLogEntry.data ts pls fx nd pf]
        ∨ (collectStats st now p h fp fm pl).1.statsLog = [SSLogEntry.data ts pls fx nd pf]) := by
  unfold collectStats
  cases p with
  | false => left; rfl
  | true =>
    cases h with
    | false => left; rfl
    | true =>
      cases fp with
      | error e => cases fm <;> (left; rfl)
      | ok pr =>
        cases fm with
        | none =>
          simpa using collectStatsCore_log_shape st now pr.1 pr.2 pl
        | some v =>
          have := collectStatsCore_log_shape { st with lastFxsMemory := some v } now pr.1 pr.2 pl
          simpa using this

/-- Helper: `collectStats` preserves the no-consecutive-markers invariant. -/
theorem collectStats_noConsecDup (st : CollectorState) (now : Nat) (p h : Bool)
    (fp : Except Unit (SSPerfBoundariesType × SSPerfCountsType))
    (fm : Option Rat) (pl : Nat) (hinv : noConsecDup st.statsLog = true) :
    noConsecDup (collectStats st now p h fp fm pl).1.statsLog = true := by
  rcases collectStats_log_shape st now p h fp fm pl with hs | hs | ⟨ts, pls, fx, nd, pf, hs | hs⟩
  · rw [hs]; exact hinv
  · rw [hs]; rfl
  · rw [hs]
    exact noConsecDup_append_single _ _ hinv
      (fun a _ => sameKind_data_right a ts pls fx nd pf)
  · rw [hs]; rfl

/-- C4: starting from an empty log, after any sequence of `logServerBoot`,
`logServerClose` and `collectStats` operations, the event log never contains
two consecutive `BootEvent`s and never contains two consecutive
`CloseEvent`s. -/
theorem collector_log_no_consecutive_markers (ops : List CollectorOp) :
    noConsecDup (runCollectorOps initialCollectorState ops).statsLog = true := by
  suffices hgen : ∀ (l : List CollectorOp) (st : CollectorState),
      noConsecDup st.statsLog = true →
      noConsecDup (runCollectorOps st l).statsLog = true by
    exact hgen ops initialCollectorState rfl
  intro l
  induction l with
  | nil => intro st hst; exact hst
  | cons op rest ih =>
    intro st hst
    have hstep : noConsecDup (applyCollectorOp st op).statsLog = true := by
      cases op with
      | boot now bt => exact logServerBoot_noConsecDup st now bt hst
      | close now r => exact logServerClose_noConsecDup st now r hst
      | collect now p h fp fm pl => exact collectStats_noConsecDup st now p h fp fm pl hst
    exact ih (applyCollectorOp st op) hstep

/-! ## Boundary and counter-reset theorems -/

/-- C5 (amended: the log wipe on differing boundaries happens only when the
last counters, the last-saved baseline and the last boundaries are all set;
when any of them is unset — not only on the true first sample — the
first-collection branch runs instead, which adopts the fetched boundaries and
resets the counter caches while keeping the log, even if the fetched
boundaries differ from the cached ones). -/
theorem applyBoundaryCheck_behavior (st : CollectorState) (b : SSPerfBoundariesType) :
    ((st.lastPerfCounts = none ∨ st.lastPerfSaved = none ∨ st.lastPerfBoundaries = none) →
      applyBoundaryCheck st b =
        { st with lastPerfBoundaries := some b, lastPerfCounts := none, lastPerfSaved := none })
    ∧ (∀ c s bd, st.lastPerfCounts = some c → st.lastPerfSaved = some s →
        st.lastPerfBoundaries = some bd → bd ≠ b →
        applyBoundaryCheck st b =
          { st with statsLog := [], lastPerfBoundaries := some b,
                    lastPerfCounts := none, lastPerfSaved := none })
    ∧ (∀ c s, st.lastPerfCounts = some c → st.lastPerfSaved = some s →
        st.lastPerfBoundaries = some b → applyBoundaryCheck st b = st) := by
  refine ⟨?_, ?_, ?_⟩
  · intro hcase
    unfold applyBoundaryCheck resetPerfState
    rcases hcase with hc | hc | hc <;> simp [hc]
  · intro c s bd hc hs hb hne
    unfold applyBoundaryCheck resetPerfState
    simp [hc, hs, hb]
    intro heq
    exact absurd heq hne
  · intro c s hc hs hb
    unfold applyBoundaryCheck resetPerfState
    simp [hc, hs, hb]

/-- Witness for `applyBoundaryCheck_behavior`: on the initial state the
first-collection branch adopts the boundaries and keeps the (empty) log. -/
theorem applyBoundaryCheck_behavior_witness :
    applyBoundaryCheck initialCollectorState [1] =
      { initialCollectorState with
          lastPerfBoundaries := some ([1]), lastPerfCounts := none, lastPerfSaved := none } :=
  (applyBoundaryCheck_behavior initialCollectorState [1]).1 (Or.inl rfl)

/-- Counterexample to C5 as stated: in `cexStateC5` the cached boundaries are
`[1]` and the fetched boundaries `[2]` differ, yet the historical log is NOT
discarded — because the cached counters are unset, the first-collection
branch wins and keeps the log; the old entry is still at the head of the log
after the full `collectStats` cycle. -/
theorem boundary_change_keeps_log_cex :
    cexStateC5.lastPerfBoundaries = some [1]
    ∧ (applyBoundaryCheck cexStateC5 [2]).statsLog = [cexDataEntry]
    ∧ (applyBoundaryCheck cexStateC5 [2]).lastPerfBoundaries = some [2]
    ∧ (collectStats cexStateC5 7 true true (Except.ok ([2], cexGoodCounts)) none 3).1.statsLog.head?
        = some cexDataEntry := by
  refine ⟨rfl, ?_, ?_, ?_⟩
  · unfold applyBoundaryCheck resetPerfState
    simp [cexStateC5]
  · unfold applyBoundaryCheck resetPerfState
    simp [cexStateC5]
  · decide

/-- C8 (amended: an aborting cycle — counter fetch rejected, or any tick
count below the minimum — leaves the log, the last counters, the last-saved
baseline, the boundaries and the node-memory cache untouched, but
`lastFxsMemory` IS overwritten whenever the concurrently fetched memory value
arrived, because the source applies the memory result before the abort
checks). -/
theorem collectStats_abort_state (st : CollectorState) (now : Nat)
    (fm : Option Rat) (players : Nat) :
    (∀ e : Unit,
      collectStats st now true true (Except.error e) fm players =
        ({ st with lastFxsMemory := updatedFxsMemory st fm }, CollectOutcome.fetchError))
    ∧ (∀ b m, ticksTooLow m = true →
      collectStats st now true true (Except.ok (b, m)) fm players =
        ({ st with lastFxsMemory := updatedFxsMemory st fm }, CollectOutcome.notEnoughTicks)) := by
  constructor
  · intro e
    cases fm <;> simp [collectStats, updatedFxsMemory]
  · intro b m hm
    cases fm <;> simp [collectStats, collectStatsCore, updatedFxsMemory, hm]

/-- Witness for `collectStats_abort_state`: a rejected counter fetch with no
memory value leaves the initial state untouched. -/
theorem collectStats_abort_state_witness :
    collectStats initialCollectorState 0 true true (Except.error ()) none 0 =
      (initialCollectorState, CollectOutcome.fetchError) := by
  have h := (collectStats_abort_state initialCollectorState 0 none 0).1 ()
  simpa [updatedFxsMemory] using h

/-- Counterexample to C8 as stated: a cycle whose counter fetch is rejected
but whose memory fetch succeeded mutates `lastFxsMemory` even though the
cycle aborted with an error. -/
theorem collectStats_abort_updates_memory_cex :
    initialCollectorState.lastFxsMemory = none
    ∧ (collectStats initialCollectorState 0 true true (Except.error ()) (some 5) 0).2
        = CollectOutcome.fetchError
    ∧ (collectStats initialCollectorState 0 true true (Except.error ()) (some 5) 0).1.lastFxsMemory
        = some 5 := by
  refine ⟨rfl, rfl, rfl⟩

/-- C6: in a cycle that passes the fetch and minimum-ticks checks, a data
point is appended exactly when no point has ever been saved (the last-saved
baseline is unset) or the configured minimum resolution interval has elapsed
since the last saved point; in the elapsed case the saved histogram is the
delta against the last-SAVED counters, not the last full sample; when neither
condition holds nothing is appended and the baseline is unchanged, but the
last-full-sample cache is still updated to the fresh counters. (Stated for
cycles without boundary changes or counter resets, which are the subject of
C5 and C7.) -/
theorem collectStats_save_gating (st : CollectorState) (now : Nat)
    (b : SSPerfBoundariesType) (m : SSPerfCountsType) (fm : Option Rat) (players : Nat)
    (ht : ticksTooLow m = false) :
    (st.lastPerfSaved = none →
      (collectStats st now true true (Except.ok (b, m)) fm players).2 = CollectOutcome.saved
      ∧ (collectStats st now true true (Except.ok (b, m)) fm players).1.statsLog =
          st.statsLog ++ [SSLogEntry.data now players (updatedFxsMemory st fm)
            (st.lastNodeMemory.map Prod.fst) (perfCountsToHist (countsAsDiff m))]
      ∧ (collectStats st now true true (Except.ok (b, m)) fm players).1.lastPerfSaved
          = some (now, m))
    ∧ (∀ c ts sc, st.lastPerfCounts = some c → st.lastPerfSaved = some (ts, sc) →
        st.lastPerfBoundaries = some b →
        c.svMain.count ≤ m.svMain.count → sc.svMain.count ≤ m.svMain.count →
        ((PERF_DATA_INITIAL_RES ≤ now - ts →
          (collectStats st now true true (Except.ok (b, m)) fm players).2 = CollectOutcome.saved
          ∧ (collectStats st now true true (Except.ok (b, m)) fm players).1.statsLog =
              st.statsLog ++ [SSLogEntry.data now players (updatedFxsMemory st fm)
                (st.lastNodeMemory.map Prod.fst) (perfCountsToHist (diffPerfs m (some sc)))]
          ∧ (collectStats st now true true (Except.ok (b, m)) fm players).1.lastPerfSaved
              = some (now, m))
        ∧ (now - ts < PERF_DATA_INITIAL_RES →
          (collectStats st now true true (Except.ok (b, m)) fm players).2
              = CollectOutcome.notEnoughTime
          ∧ (collectStats st now true true (Except.ok (b, m)) fm players).1.statsLog
              = st.statsLog
          ∧ (collectStats st now true true (Except.ok (b, m)) fm players).1.lastPerfSaved
              = some (ts, sc)
          ∧ (collectStats st now true true (Except.ok (b, m)) fm players).1.lastPerfCounts
              = some m))) := by
  constructor
  · intro hs
    cases fm <;>
      simp [collectStats, collectStatsCore, applyBoundaryCheck, applyCounterResetCheck,
        resetPerfState, ht, hs, updatedFxsMemory, diffPerfs]
  · intro c ts sc hc hs hb hmono1 hmono2
    have h1 : ¬(m.svMain.count < c.svMain.count) := Nat.not_lt.mpr hmono1
    have h2 : ¬(m.svMain.count < sc.svMain.count) := Nat.not_lt.mpr hmono2
    constructor
    · intro hres
      cases fm <;>
        simp [collectStats, collectStatsCore, applyBoundaryCheck, applyCounterResetCheck,
          resetPerfState, ht, hc, hs, hb, h1, h2, hres, updatedFxsMemory]
    · intro hres
      have hres' : ¬(PERF_DATA_INITIAL_RES ≤ now - ts) := Nat.not_le.mpr hres
      cases fm <;>
        simp [collectStats, collectStatsCore, applyBoundaryCheck, applyCounterResetCheck,
          resetPerfState, ht, hc, hs, hb, h1, h2, hres', updatedFxsMemory]

/-- Witness for `collectStats_save_gating`: first-ever save on the initial
state appends one data point. -/
theorem collectStats_save_gating_witness :
    (collectStats initialCollectorState 0 true true (Except.ok ([1], cexGoodCounts)) none 2).2
        = CollectOutcome.saved
    ∧ (collectStats initialCollectorState 0 true true (Except.ok ([1], cexGoodCounts)) none 2).1.statsLog
        = [SSLogEntry.data 0 2 none none (perfCountsToHist (countsAsDiff cexGoodCounts))] :=
  ⟨((collectStats_save_gating initialCollectorState 0 ([1]) cexGoodCounts none 2 rfl).1 rfl).1,
   ((collectStats_save_gating initialCollectorState 0 ([1]) cexGoodCounts none 2 rfl).1 rfl).2.1⟩

/-- C7: if the fresh cumulative `svMain` count is lower than the last full
sample's, both the last-full-sample and last-saved caches are reset; if it is
only lower than the last-saved sample's, just the saved baseline is reset and
the full-sample cache is kept; and in both reset scenarios the histogram that
the cycle subsequently computes and saves has a non-negative `svMain` tick
delta (after a full reset it is the raw cumulative count itself; after a
baseline reset it is the delta against the last full sample). -/
theorem collectStats_counter_reset (st : CollectorState) (now : Nat)
    (b : SSPerfBoundariesType) (m : SSPerfCountsType) (fm : Option Rat) (players : Nat)
    (ht : ticksTooLow m = false) :
    (∀ c, st.lastPerfCounts = some c → m.svMain.count < c.svMain.count →
      applyCounterResetCheck st m = resetPerfState st)
    ∧ (∀ c s, st.lastPerfCounts = some c → c.svMain.count ≤ m.svMain.count →
        st.lastPerfSaved = some s → m.svMain.count < s.2.svMain.count →
        applyCounterResetCheck st m = { st with lastPerfSaved := none })
    ∧ (∀ c ts sc, st.lastPerfCounts = some c → st.lastPerfSaved = some (ts, sc) →
        st.lastPerfBoundaries = some b → m.svMain.count < c.svMain.count →
        (collectStats st now true true (Except.ok (b, m)) fm players).2 = CollectOutcome.saved
        ∧ (collectStats st now true true (Except.ok (b, m)) fm players).1.statsLog =
            st.statsLog ++ [SSLogEntry.data now players (updatedFxsMemory st fm)
              (st.lastNodeMemory.map Prod.fst) (perfCountsToHist (countsAsDiff m))]
        ∧ (countsAsDiff m).svMain.count = (m.svMain.count : Int)
        ∧ 0 ≤ (countsAsDiff m).svMain.count)
    ∧ (∀ c ts sc, st.lastPerfCounts = some c → st.lastPerfSaved = some (ts, sc) →
        st.lastPerfBoundaries = some b → c.svMain.count ≤ m.svMain.count →
        m.svMain.count < sc.svMain.count →
        (collectStats st now true true (Except.ok (b, m)) fm players).2 = CollectOutcome.saved
        ∧ (collectStats st now true true (Except.ok (b, m)) fm players).1.statsLog =
            st.statsLog ++ [SSLogEntry.data now players (updatedFxsMemory st fm)
              (st.lastNodeMemory.map Prod.fst) (perfCountsToHist (diffPerfs m (some c)))]
        ∧ (diffPerfs m (some c)).svMain.count
            = (m.svMain.count : Int) - (c.svMain.count : Int)
        ∧ 0 ≤ (diffPerfs m (some c)).svMain.count) := by
  refine ⟨?_, ?_, ?_, ?_⟩
  · intro c hc hlt
    unfold applyCounterResetCheck
    simp [hc, hlt]
  · intro c s hc hge hs hlt
    have h1 : ¬(m.svMain.count < c.svMain.count) := Nat.not_lt.mpr hge
    unfold applyCounterResetCheck
    simp [hc, hs, h1, hlt]
  · intro c ts sc hc hs hb hlt
    refine ⟨?_, ?_, rfl, Int.ofNat_nonneg _⟩ <;>
      cases fm <;>
        simp [collectStats, collectStatsCore, applyBoundaryCheck, applyCounterResetCheck,
          resetPerfState, ht, hc, hs, hb, hlt, updatedFxsMemory, diffPerfs]
  · intro c ts sc hc hs hb hge hlt
    have h1 : ¬(m.svMain.count < c.svMain.count) := Nat.not_lt.mpr hge
    refine ⟨?_, ?_, ?_, ?_⟩
    · cases fm <;>
        simp [collectStats, collectStatsCore, applyBoundaryCheck, applyCounterResetCheck,
          resetPerfState, ht, hc, hs, hb, h1, hlt, updatedFxsMemory]
    · cases fm <;>
        simp [collectStats, collectStatsCore, applyBoundaryCheck, applyCounterResetCheck,
          resetPerfState, ht, hc, hs, hb, h1, hlt, updatedFxsMemory]
    · simp [diffPerfs, diffPerfCounter]
    · simp [diffPerfs, diffPerfCounter]
      omega

/-- Witness for `collectStats_counter_reset`: a fetch of `cexGoodCounts`
against cached `cexBigCounts` triggers the full reset and still saves a
snapshot with a non-negative tick count. -/
theorem collectStats_counter_reset_witness :
    (collectStats cexStateC7 0 true true (Except.ok ([1], cexGoodCounts)) none 0).2
        = CollectOutcome.saved
    ∧ 0 ≤ (countsAsDiff cexGoodCounts).svMain.count :=
  ⟨((collectStats_counter_reset cexStateC7 0 ([1]) cexGoodCounts none 0 rfl).2.2.1
      cexBigCounts 0 cexBigCounts rfl rfl rfl (by decide)).1,
   ((collectStats_counter_reset cexStateC7 0 ([1]) cexGoodCounts none 0 rfl).2.2.1
      cexBigCounts 0 cexBigCounts rfl rfl rfl (by decide)).2.2.2⟩

/-! ## Recent-stats cache theorems -/

/-- Helper: `logServerBoot` clears all three caches. -/
theorem logServerBoot_clears (st : CollectorState) (now bt : Nat) :
    memCachesCleared (logServerBoot st now bt).1 := by
  unfold logServerBoot resetMemoryState resetPerfState memCachesCleared
  cases st.statsLog.getLast? <;> simp

/-- Helper: `logServerClose` clears all three caches in every branch,
including the duplicate-close no-op branch. -/
theorem logServerClose_clears (st : CollectorState) (now : Nat) (r : String) :
    memCachesCleared (logServerClose st now r).1 := by
  unfold logServerClose resetMemoryState resetPerfState memCachesCleared
  cases hl : st.statsLog.getLast? with
  | none => simp [hl]
  | some e =>
    by_cases hc : e.isCloseEntry = true
    · simp [hl, hc]
    · by_cases hb : e.isBootEntry = true <;> simp [hl, hb, hc]

/-- Helper: non-repopulating operations keep the three caches unset. -/
theorem nonRepopulatingOp_keeps_cleared (st : CollectorState) (op : CollectorOp)
    (hop : nonRepopulatingOp op = true) (h : memCachesCleared st) :
    memCachesCleared (applyCollectorOp st op) := by
  cases op with
  | boot now bt => exact logServerBoot_clears st now bt
  | close now r => exact logServerClose_clears st now r
  | collect now p h' fp fm pl =>
    simp only [nonRepopulatingOp, Bool.and_eq_true, Option.isNone_iff_eq_none] at hop
    obtain ⟨hfm, habort⟩ := hop
    subst hfm
    cases p with
    | false => exact h
    | true =>
      cases h' with
      | false => exact h
      | true =>
        cases fp with
        | error e => exact h
        | ok pr =>
          simp at habort
          show memCachesCleared (collectStats st now true true (Except.ok pr) none pl).1
          have : collectStats st now true true (Except.ok pr) none pl
              = (st, CollectOutcome.notEnoughTicks) := by
            simp [collectStats, collectStatsCore, habort]
          rw [this]
          exact h

/-- C10: immediately after `logServerBoot` or `logServerClose` (any branch,
including the no-op duplicate-close branch), `getRecentStats()` reports
`undefined` for `fxsMemory`, `nodeMemory` and `perf`, and they remain
`undefined` across any further sequence of non-repopulating operations
(boot/close, and collection cycles that abort without a fetched memory
value). -/
theorem recentStats_cleared_after_boot_close (st : CollectorState)
    (bootT bt closeT : Nat) (reason : String) (ops : List CollectorOp)
    (hops : ∀ op ∈ ops, nonRepopulatingOp op = true) :
    getRecentStats (runCollectorOps (logServerBoot st bootT bt).1 ops) =
      { fxsMemory := none, nodeMemory := none, perf := none }
    ∧ getRecentStats (runCollectorOps (logServerClose st closeT reason).1 ops) =
      { fxsMemory := none, nodeMemory := none, perf := none } := by
  have hrun : ∀ (l : List CollectorOp) (st0 : CollectorState),
      (∀ op ∈ l, nonRepopulatingOp op = true) → memCachesCleared st0 →
      memCachesCleared (runCollectorOps st0 l) := by
    intro l
    induction l with
    | nil => intro st0 _ h0; exact h0
    | cons op rest ih =>
      intro st0 hl h0
      exact ih (applyCollectorOp st0 op) (fun o ho => hl o (by simp [ho]))
        (nonRepopulatingOp_keeps_cleared st0 op (hl op (by simp)) h0)
  have hstats : ∀ st0 : CollectorState, memCachesCleared st0 →
      getRecentStats st0 = { fxsMemory := none, nodeMemory := none, perf := none } := by
    intro st0 h0
    obtain ⟨h1, h2, h3⟩ := h0
    simp [getRecentStats, h1, h2, h3]
  exact ⟨hstats _ (hrun ops _ hops (logServerBoot_clears st bootT bt)),
         hstats _ (hrun ops _ hops (logServerClose_clears st closeT reason))⟩

/-- Witness for `recentStats_cleared_after_boot_close`: a boot followed by a
duplicate close and an aborting collection still reports all three fields as
unset. -/
theorem recentStats_cleared_witness :
    getRecentStats (runCollectorOps (logServerBoot cexStateC7 1 500).1
      [CollectorOp.close 2 "a", CollectorOp.close 3 "b",
       CollectorOp.collect 4 true true (Except.error ()) none 0]) =
      { fxsMemory := none, nodeMemory := none, perf := none } :=
  (recentStats_cleared_after_boot_close cexStateC7 1 500 9 "x"
    [CollectorOp.close 2 "a", CollectorOp.close 3 "b",
     CollectorOp.collect 4 true true (Except.error ()) none 0]
    (by decide)).1

/-! ## Summary theorems -/

/-- Helper: indexing a map over `range` inside the bucket loop. -/
theorem getD_map_range (n : Nat) (g : Nat → Rat) (b : Nat) (hb : b < n) :
    ((List.range n).map g).getD b 0 = g b := by
  rw [List.getD_eq_getElem?_getD, List.getElem?_map, List.getElem?_range hb]
  rfl

/-- Helper: the summary scan loop computes, over any prefix accumulator,
the qualifying-snapshot count, the pushed median inputs, and the cumulative
tick sums of the filtered log. -/
theorem summary_foldl_spec (now : Nat) (l : List SSLogEntry) (acc : SummaryAcc) (g : Nat → Rat)
    (hcb : acc.cumBuckets = (List.range PERF_DATA_BUCKET_COUNT).map g) :
    l.foldl (summaryStep now) acc =
      { totalSnapshots := acc.totalSnapshots + (l.filter (qualifiesForSummary now)).length
        players := acc.players ++ (l.filter (qualifiesForSummary now)).map entryPlayers
        fxsMemory := acc.fxsMemory ++ (l.filter (qualifiesForSummary now)).map entryFxsMemory
        nodeMemory := acc.nodeMemory ++ (l.filter (qualifiesForSummary now)).map entryNodeMemory
        cumTicks := acc.cumTicks +
          ((l.filter (qualifiesForSummary now)).map (fun e => snapTicks (entryPerfMain e))).sum
        cumBuckets := (List.range PERF_DATA_BUCKET_COUNT).map
          (fun b => g b +
            ((l.filter (qualifiesForSummary now)).map
              (fun e => bucketTicks (entryPerfMain e) b)).sum) } := by
  induction l generalizing acc g with
  | nil =>
    cases acc
    simp_all
  | cons e t ih =>
    by_cases hq : qualifiesForSummary now e = true
    · rw [List.foldl_cons, List.filter_cons_of_pos hq]
      have hstep : summaryStep now acc e =
          { totalSnapshots := acc.totalSnapshots + 1
            players := acc.players ++ [entryPlayers e]
            fxsMemory := acc.fxsMemory ++ [entryFxsMemory e]
            nodeMemory := acc.nodeMemory ++ [entryNodeMemory e]
            cumTicks := acc.cumTicks + snapTicks (entryPerfMain e)
            cumBuckets := (List.range PERF_DATA_BUCKET_COUNT).map
              (fun b => acc.cumBuckets.getD b 0 + bucketTicks (entryPerfMain e) b) } := by
        unfold summaryStep
        rw [if_pos hq]
      rw [hstep]
      rw [ih _ (fun b => g b + bucketTicks (entryPerfMain e) b) (by
        refine List.map_congr_left ?_
        intro b hb
        rw [hcb, getD_map_range PERF_DATA_BUCKET_COUNT g b (List.mem_range.mp hb)])]
      simp only [SummaryAcc.mk.injEq]
      refine ⟨(by simp; omega), (by simp), (by simp), (by simp), (by simp [List.sum_cons]; ring), ?_⟩
      refine List.map_congr_left ?_
      intro b _
      simp only [List.map_cons, List.sum_cons]
      ring
    · rw [List.foldl_cons, List.filter_cons_of_neg (by simp [hq])]
      have hstep : summaryStep now acc e = acc := by
        unfold summaryStep
        rw [if_neg (by simp [hq])]
      rw [hstep]
      exact ih acc g hcb

/-- C2: `getServerPerfSummary()` equals its specification: it considers only
data entries within the last 6 hours whose `svMain` tick count meets the
minimum-ticks threshold, returns nothing when fewer than 36 such snapshots
exist, and otherwise reports, per bucket, the sum over snapshots of the
reconstructed absolute tick counts `freq * count` divided by the total
reconstructed tick sum (count-weighted aggregation), together with the median
of players, fxsMemory and nodeMemory over the qualifying snapshots. -/
theorem getServerPerfSummary_spec (st : CollectorState) (now : Nat) :
    getServerPerfSummary st now = specServerPerfSummary st now := by
  unfold getServerPerfSummary specServerPerfSummary
  rw [summary_foldl_spec now st.statsLog initSummaryAcc (fun _ => (0 : Rat))
    (by simp [initSummaryAcc, List.map_const])]
  simp [initSummaryAcc, List.map_map, Function.comp_def]
